import Mathlib

/-!
Shallow embedding of the signal intake and classification pipeline of the
bloomberg-telegram dashboard: the chain allow-list filter and token-identity
filter of `signal-feed.tsx`, the identity classifier, scan-message filter,
text sanitizer and narrative extractor of the signal-card component, and the
scan orchestration of `feed-filters.tsx` / `trending-feed.tsx`.

Strings are modelled as Lean `String`s (lists of unicode scalar chars); the
JavaScript regular expressions are translated into explicit scanners over
`List Char`.  `toLowerCase` is modelled on the ASCII range, which covers every
pattern and comparison the code performs.  The JavaScript float comparison
`joined.length > 0.3 * text.length` over two integers is modelled as the exact
`10 * joined > 3 * len`; for the integer operands the code can produce the two
comparisons agree (the rounding error of the double nearest 0.3 times an
integer is below half an ulp of the exact product).
-/

namespace Bloomberg

/-! ### Character and list-of-char utilities (JS regex building blocks) -/

/-- JS `\s` (restricted to the whitespace characters the pipeline meets). -/
def isWsChar (c : Char) : Bool :=
  c = ' ' || c = '\t' || c = '\n' || c = '\r'

/-- JS `[a-zA-Z0-9]`. -/
def isAlnumChar (c : Char) : Bool :=
  ('a' ≤ c && c ≤ 'z') || ('A' ≤ c && c ≤ 'Z') || ('0' ≤ c && c ≤ '9')

/-- JS `\d`. -/
def isDigitChar (c : Char) : Bool := '0' ≤ c && c ≤ '9'

/-- JS `[a-z]`. -/
def isLowerChar (c : Char) : Bool := 'a' ≤ c && c ≤ 'z'

/-- JS `[A-Z]`. -/
def isUpperChar (c : Char) : Bool := 'A' ≤ c && c ≤ 'Z'

/-- ASCII model of JS `toLowerCase` on a single character. -/
def lowerChar (c : Char) : Char :=
  if 'A' ≤ c && c ≤ 'Z' then Char.ofNat (c.toNat + 32) else c

/-- ASCII model of JS `String.prototype.toLowerCase`. -/
def lowerL (s : List Char) : List Char := s.map lowerChar

/-- String-level lower-casing, JS `str.toLowerCase()`. -/
def lowerS (s : String) : String := ⟨lowerL s.data⟩

/-- JS `haystack.includes(pat)`: substring containment. -/
def containsSubL (p : List Char) : List Char → Bool
  | [] => p.isEmpty
  | c :: rest => p.isPrefixOf (c :: rest) || containsSubL p rest

/-- JS `str.trim()` (both ends, `\s`). -/
def trimL (s : List Char) : List Char :=
  ((s.dropWhile isWsChar).reverse.dropWhile isWsChar).reverse

/-! ### The chain filter and identity filter of signal-feed.tsx -/

/-- The token shape used by the feed (`signal.token`). -/
structure Token where
  address : Option String
  symbol : Option String
  name : Option String
  chain : Option String
deriving DecidableEq

/-- A mention-record / cluster row as delivered to the feed component. -/
structure Signal where
  cluster_id : String
  token : Option Token
deriving DecidableEq

/-- Embeds `isValidChain` (signal-feed.tsx lines 219-223):
`chain?.toLowerCase()` must be `"solana"`, `"base"` or `"bsc"`;
a missing token or chain is rejected. -/
def isValidChain (s : Signal) : Bool :=
  match s.token with
  | none => false
  | some t =>
    match t.chain with
    | none => false
    | some c => lowerS c = "solana" || lowerS c = "base" || lowerS c = "bsc"

/-- Embeds the `looksLikeAddress` helper of signal-feed.tsx lines 191-204
(and identically of the signal-card component): a string counts as an
address when it is empty (JS `!str`), starts with `0x`, contains the
truncation marker `...`, is longer than 15 characters, is a mixed-case
alphanumeric string longer than 10 characters with at least one lowercase
letter, one uppercase letter and one digit, or ends with `pump`
case-insensitively. -/
def looksLikeAddressStr (s : String) : Bool :=
  if s.data.isEmpty then true
  else if "0x".data.isPrefixOf s.data then true
  else if containsSubL "...".data s.data then true
  else if decide (15 < s.data.length) then true
  else if 10 < s.data.length && (!s.data.isEmpty) && s.data.all isAlnumChar
      && s.data.any isLowerChar && s.data.any isUpperChar && s.data.any isDigitChar then true
  else if "pump".data.isSuffixOf (lowerL s.data) then true
  else false

/-- The same helper lifted to an optional string: JS `!str` makes a missing
string count as an address. -/
def looksLikeAddress : Option String → Bool
  | none => true
  | some s => looksLikeAddressStr s

/-- Embeds `hasValidTokenName` (signal-feed.tsx lines 181-217): the signal
must carry a token whose symbol — or, as a fallback, whose name — is truthy
and does not look like an address. -/
def hasValidTokenName (s : Signal) : Bool :=
  match s.token with
  | none => false
  | some t =>
    let symbolOk := match t.symbol with
      | some sy => (!sy.data.isEmpty) && !looksLikeAddressStr sy
      | none => false
    if symbolOk then true
    else match t.name with
      | some nm => (!nm.data.isEmpty) && !looksLikeAddressStr nm
      | none => false

/-- Embeds the `filteredSignals` memo (signal-feed.tsx lines 234-247): keep a
signal only when its chain is allowed and it has a valid token name. -/
def filteredSignals (signals : List Signal) : List Signal :=
  signals.filter (fun s => isValidChain s && hasValidTokenName s)

/-! ### Sample records used by witnesses -/

/-- A record on chain `"Solana"` with a clean ticker. -/
def exSolanaSignal : Signal :=
  ⟨"c1", some ⟨some "So11111111111111111111111111111111111111112",
               some "PEPE", some "Pepe", some "Solana"⟩⟩

/-- A record on chain `"ethereum"` (not in the allow-list). -/
def exEthSignal : Signal :=
  ⟨"c2", some ⟨some "0xdeadbeef", some "PEPE", some "Pepe", some "ethereum"⟩⟩

/-- A record on an allowed chain whose symbol and name are both raw addresses. -/
def exAddressOnlySignal : Signal :=
  ⟨"c3", some ⟨some "0xdeadbeef", some "0xdeadbeef", none, some "base"⟩⟩

/-! ### C1: the chain allow-list is closed and case-insensitive -/

/-- C1: a record whose chain, lower-cased, is not `"solana"`, `"base"` or
`"bsc"` — in particular a record with a missing token or missing chain —
never appears in the filtered feed; moreover the comparison is
case-insensitive: a chain `"Solana"` passes `isValidChain` and a chain
`"ethereum"` is rejected. -/
theorem chain_filter_sound :
    (∀ (signals : List Signal) (s : Signal),
      (∀ c : String, s.token.bind Token.chain = some c →
        lowerS c ≠ "solana" ∧ lowerS c ≠ "base" ∧ lowerS c ≠ "bsc") →
      s ∉ filteredSignals signals)
    ∧ (∀ (s : Signal) (t : Token), s.token = some t → t.chain = some "Solana" →
        isValidChain s = true)
    ∧ (∀ (s : Signal) (t : Token), s.token = some t → t.chain = some "ethereum" →
        isValidChain s = false) := by
  refine ⟨?_, ?_, ?_⟩
  · intro signals s h hmem
    rw [filteredSignals, List.mem_filter] at hmem
    have hvalid : isValidChain s = true := ((Bool.and_eq_true _ _).mp hmem.2).1
    obtain ⟨cid, tok⟩ := s
    cases tok with
    | none => exact Bool.noConfusion hvalid
    | some t =>
      obtain ⟨a, sy, nm, ch⟩ := t
      cases ch with
      | none => exact Bool.noConfusion hvalid
      | some c =>
        have hc := h c rfl
        have hv : (decide (lowerS c = "solana") || decide (lowerS c = "base")
            || decide (lowerS c = "bsc")) = true := hvalid
        rcases (Bool.or_eq_true _ _).mp hv with h' | h'
        · rcases (Bool.or_eq_true _ _).mp h' with h'' | h''
          · exact hc.1 (of_decide_eq_true h'')
          · exact hc.2.1 (of_decide_eq_true h'')
        · exact hc.2.2 (of_decide_eq_true h')
  · intro s t htok hch
    simp [isValidChain, htok, hch]
    decide
  · intro s t htok hch
    simp [isValidChain, htok, hch]
    decide

/-- Witness for C1 at concrete records: the `"ethereum"` record is dropped
from a concrete feed, the `"Solana"` record passes the chain filter, and the
`"ethereum"` record fails it. -/
theorem chain_filter_sound_witness :
    exEthSignal ∉ filteredSignals [exSolanaSignal, exEthSignal]
    ∧ isValidChain exSolanaSignal = true
    ∧ isValidChain exEthSignal = false :=
  ⟨chain_filter_sound.1 [exSolanaSignal, exEthSignal] exEthSignal
      (by intro c hc
          have h : some "ethereum" = some c := hc
          have h' := Option.some.inj h
          subst h'
          refine ⟨by decide, by decide, by decide⟩),
   chain_filter_sound.2.1 exSolanaSignal _ rfl rfl,
   chain_filter_sound.2.2 exEthSignal _ rfl rfl⟩

/-! ### C3: records whose symbol and name both look like addresses are dropped -/

/-- C3: a record whose token symbol and token name both satisfy the
address-like predicate (a missing symbol or name counts as address-like, so
this includes both being absent, and a missing token is dropped outright)
never appears in the filtered feed. -/
theorem identity_filter_sound (signals : List Signal) (s : Signal)
    (h : ∀ t : Token, s.token = some t →
      looksLikeAddress t.symbol = true ∧ looksLikeAddress t.name = true) :
    s ∉ filteredSignals signals := by
  intro hmem
  rw [filteredSignals, List.mem_filter] at hmem
  have hname : hasValidTokenName s = true :=
    ((Bool.and_eq_true _ _).mp hmem.2).2
  cases htok : s.token with
  | none => simp [hasValidTokenName, htok] at hname
  | some t =>
    have ht := h t htok
    have hsym := ht.1
    have hnm := ht.2
    cases hs : t.symbol with
    | none =>
      cases hn : t.name with
      | none => simp [hasValidTokenName, htok, hs, hn] at hname
      | some nm =>
        rw [hn, looksLikeAddress] at hnm
        simp [hasValidTokenName, htok, hs, hn, hnm] at hname
    | some sy =>
      rw [hs, looksLikeAddress] at hsym
      cases hn : t.name with
      | none => simp [hasValidTokenName, htok, hs, hn, hsym] at hname
      | some nm =>
        rw [hn, looksLikeAddress] at hnm
        simp [hasValidTokenName, htok, hs, hn, hsym, hnm] at hname

/-- Witness for C3: a concrete record whose symbol is a raw `0x` address and
whose name is missing is dropped from a concrete feed. -/
theorem identity_filter_sound_witness :
    exAddressOnlySignal ∉ filteredSignals [exSolanaSignal, exAddressOnlySignal] :=
  identity_filter_sound [exSolanaSignal, exAddressOnlySignal] exAddressOnlySignal
    (by intro t ht
        have h' := Option.some.inj ht
        subst h'
        exact ⟨by decide, by decide⟩)

/-! ### C2: the identity classifier of the signal-card component -/

/-- The derived token identity (spec data model `TokenIdentity`). -/
structure TokenIdentity where
  displaySymbol : Option String
  displayName : Option String
  isAddressOnly : Bool
deriving DecidableEq

/-- JS truthiness normalisation of an optional string: `""`, `null` and
`undefined` are all falsy, so `signal.token.symbol || tokenInfo?.symbol`
with no fetched token info yields nothing for an empty or missing symbol. -/
def jsOrNone : Option String → Option String
  | some s => if s.data.isEmpty then none else some s
  | none => none

/-- The shared shape of `displaySymbol`/`displayName` in the signal-card
component (source lines 493 and 495): keep the truthy-normalised string only
when it does not look like an address. -/
def dispOf (x : Option String) : Option String :=
  if looksLikeAddress (jsOrNone x) = false then jsOrNone x else none

/-- Embeds the identity derivation of the signal-card component
(`rawSymbol`/`displaySymbol`/`rawName`/`displayName`, source lines 492-499),
with the asynchronous token-info lookup unresolved (`tokenInfo = null`, its
state on first render): each of symbol and name is kept only when truthy and
not address-like, and `isAddressOnly` records that neither survived. -/
def classifyIdentity (symbol name : Option String) : TokenIdentity :=
  ⟨dispOf symbol, dispOf name, (dispOf symbol).isNone && (dispOf name).isNone⟩

/-- Embeds the rendered identity `${displaySymbol || displayName}` of the
signal-card header (source line 566): symbol preferred, name as fallback;
`none` corresponds to the card returning `null` (record dropped). -/
def displayIdentity (ti : TokenIdentity) : Option String :=
  match ti.displaySymbol with
  | some s => some s
  | none => ti.displayName

/-- Definition following the claim's words for C2: a string is address-like
exactly when it starts with `0x`, contains `...`, has length over 15, is
mixed-case alphanumeric of length over 10 with a lowercase letter, an
uppercase letter and a digit, or ends with `pump` case-insensitively (the
claim does not make the empty string address-like). -/
def looksLikeAddressClaim (s : String) : Bool :=
  "0x".data.isPrefixOf s.data || containsSubL "...".data s.data || 15 < s.data.length
    || (10 < s.data.length && (!s.data.isEmpty) && s.data.all isAlnumChar
        && s.data.any isLowerChar && s.data.any isUpperChar && s.data.any isDigitChar)
    || "pump".data.isSuffixOf (lowerL s.data)

/-- The claim's predicate amended as the code forces: an empty (or missing)
string is also address-like. -/
def looksLikeAddressAmended (s : String) : Bool :=
  s.data.isEmpty || looksLikeAddressClaim s

/-- Display-identity selection following the claim's words for C2, over a
given address-likeness predicate: the first of symbol then name that is
present and not address-like, else none. -/
def displayIdentitySelect (addrLike : String → Bool) (symbol name : Option String) :
    Option String :=
  match symbol with
  | some sy =>
    if addrLike sy = false then some sy
    else match name with
      | some nm => if addrLike nm = false then some nm else none
      | none => none
  | none =>
    match name with
    | some nm => if addrLike nm = false then some nm else none
    | none => none

/-- Helper: a chain of boolean guards with `true` branches is the
disjunction of the guards. -/
theorem ifChain6_or : ∀ b1 b2 b3 b4 b5 b6 : Bool,
    (if b1 then true else if b2 then true else if b3 then true
     else if b4 then true else if b5 then true else if b6 then true else false)
      = (b1 || (b2 || b3 || b4 || b5 || b6)) := by
  decide

/-- Helper: on every string the code's address predicate agrees with the
claim's enumeration extended by the empty-string clause. -/
theorem looksLikeAddressStr_eq_amended (s : String) :
    looksLikeAddressStr s = looksLikeAddressAmended s := by
  exact ifChain6_or (s.data.isEmpty) ("0x".data.isPrefixOf s.data)
    (containsSubL "...".data s.data) (decide (15 < s.data.length))
    (decide (10 < s.data.length) && (!s.data.isEmpty) && s.data.all isAlnumChar
      && s.data.any isLowerChar && s.data.any isUpperChar && s.data.any isDigitChar)
    ("pump".data.isSuffixOf (lowerL s.data))

/-- Helper: `dispOf` in terms of the amended claim predicate. -/
theorem dispOf_eq (x : Option String) :
    dispOf x = (match x with
      | some s => if looksLikeAddressAmended s = false then some s else none
      | none => none) := by
  cases x with
  | none => rfl
  | some s =>
    cases h : s.data.isEmpty with
    | true =>
      have ha : looksLikeAddressAmended s = true := by
        rw [looksLikeAddressAmended, h, Bool.true_or]
      simp [dispOf, jsOrNone, h, looksLikeAddress, ha]
    | false =>
      simp [dispOf, jsOrNone, h, looksLikeAddress, looksLikeAddressStr_eq_amended]

/-- C2 (amended): the code's address-likeness predicate is the claim's
enumeration plus an empty-string clause; the rendered display identity is
the first of symbol then name that is present, non-empty and not
address-like under that amended predicate; and on the claim's scenario
(symbol `"0xAbC123..."`, name `"PepeCoin"`) the display identity is the
name `"PepeCoin"`. -/
theorem classifyIdentity_spec :
    (∀ s : String, looksLikeAddressStr s = looksLikeAddressAmended s)
    ∧ (∀ symbol name : Option String,
        displayIdentity (classifyIdentity symbol name)
          = displayIdentitySelect looksLikeAddressAmended symbol name)
    ∧ displayIdentity (classifyIdentity (some "0xAbC123...") (some "PepeCoin"))
        = some "PepeCoin" := by
  refine ⟨looksLikeAddressStr_eq_amended, ?_, by decide⟩
  intro symbol name
  rw [classifyIdentity, displayIdentity]
  simp only [dispOf_eq]
  cases symbol with
  | none =>
    cases name with
    | none => rfl
    | some nm =>
      cases hnm : looksLikeAddressAmended nm <;>
        simp [displayIdentitySelect, hnm]
  | some sy =>
    cases hsy : looksLikeAddressAmended sy with
    | false => simp [displayIdentitySelect, hsy]
    | true =>
      cases name with
      | none => simp [displayIdentitySelect, hsy]
      | some nm =>
        cases hnm : looksLikeAddressAmended nm <;>
          simp [displayIdentitySelect, hsy, hnm]

/-- Counterexample for C2 as stated: with symbol the empty string (present
but empty) and name `"PepeCoin"`, the claim's selection keeps the empty
symbol (it is not address-like under the claim's enumeration), while the
code rejects it and displays the name. -/
theorem classifyIdentity_claim_counterexample :
    displayIdentity (classifyIdentity (some "") (some "PepeCoin")) = some "PepeCoin"
    ∧ displayIdentitySelect looksLikeAddressClaim (some "") (some "PepeCoin") = some ""
    ∧ displayIdentity (classifyIdentity (some "") (some "PepeCoin"))
        ≠ displayIdentitySelect looksLikeAddressClaim (some "") (some "PepeCoin") := by
  refine ⟨by decide, by decide, by decide⟩

/-! ### C4: the manual scan over linked accounts (feed-filters.tsx handleScan) -/

/-- A linked Telegram account as returned by `api.getTelegramAccounts()`. -/
structure ScanAccount where
  id : String
  is_active : Bool
deriving DecidableEq

/-- The per-account payload of `api.ingestMessages`. -/
structure IngestResult where
  messages_processed : Nat
  tokens_found : Nat
  clusters_updated : Nat
deriving DecidableEq

/-- Embeds the `for (const account of accounts)` loop of `handleScan`
(feed-filters.tsx lines 76-83): active accounts are ingested sequentially
and their totals summed; a throwing call aborts the whole loop, propagating
the error out of the `try` block. -/
def runAccounts (ingest : String → Except String IngestResult) :
    List ScanAccount → Nat × Nat × Nat → Except String (Nat × Nat × Nat)
  | [], acc => .ok acc
  | a :: rest, acc =>
    if a.is_active then
      match ingest a.id with
      | .ok r => runAccounts ingest rest
          (acc.1 + r.messages_processed, acc.2.1 + r.tokens_found,
           acc.2.2 + r.clusters_updated)
      | .error e => .error e
    else runAccounts ingest rest acc

/-- The observable outcome of one `handleScan` run: the final `scanResult`
banner and how many times the feed cache was invalidated. -/
structure HandleScanOutcome where
  resultSuccess : Bool
  resultMessage : String
  invalidations : Nat
deriving DecidableEq

/-- The error banner text: `error?.response?.data?.detail || "Scan failed -
check settings"` with the thrown detail modelled as a string. -/
def scanErrorMessage (e : String) : String :=
  if e.data.isEmpty then "Scan failed - check settings" else e

/-- Embeds `handleScan` (feed-filters.tsx lines 60-102): with no accounts it
reports "No Telegram account connected" and touches nothing; otherwise it
runs the sequential ingestion loop inside one `try`; on success it
invalidates the feed cache once and reports the totals, and on a thrown
per-account error it skips the invalidation and reports the error banner. -/
def handleScan (accounts : List ScanAccount)
    (ingest : String → Except String IngestResult) : HandleScanOutcome :=
  if accounts.isEmpty then ⟨false, "No Telegram account connected", 0⟩
  else
    match runAccounts ingest accounts (0, 0, 0) with
    | .ok (m, t, _) =>
      ⟨true, "Scanned " ++ toString m ++ " messages, found "
          ++ toString t ++ " tokens", 1⟩
    | .error e => ⟨false, scanErrorMessage e, 0⟩

/-- A concrete ingestion behaviour where account `"A"` succeeds and account
`"B"` throws. -/
def exIngestAB : String → Except String IngestResult := fun i =>
  if i = "A" then .ok ⟨5, 2, 1⟩ else .error "boom"

/-- Counterexample for C4 as stated: for the scan over active accounts
`[A, B]` where `A` succeeds and `B` throws, the code performs zero feed-cache
invalidations (the claim demands exactly one regardless of outcomes), and it
reports a single overall error banner rather than a per-account result map
with an entry for `A`. -/
theorem handleScan_claim_counterexample :
    (handleScan [⟨"A", true⟩, ⟨"B", true⟩] exIngestAB).invalidations = 0
    ∧ (handleScan [⟨"A", true⟩, ⟨"B", true⟩] exIngestAB).invalidations ≠ 1
    ∧ (handleScan [⟨"A", true⟩, ⟨"B", true⟩] exIngestAB).resultSuccess = false := by
  refine ⟨by decide, by decide, by decide⟩

/-- C4 (amended): for a manual scan over requested active accounts `[A, B]`
where `A`'s ingestion call succeeds and `B`'s throws, the sequential loop
aborts at `B`: the scan produces no per-account result map but a single
error banner carrying `B`'s error, and performs zero feed-cache
invalidations; only a scan in which every active account succeeds performs
exactly one invalidation. -/
theorem handleScan_partial_failure (A B : ScanAccount)
    (ingest : String → Except String IngestResult) (r : IngestResult) (e : String)
    (hA : A.is_active = true) (hB : B.is_active = true)
    (hia : ingest A.id = .ok r) (hib : ingest B.id = .error e) :
    handleScan [A, B] ingest = ⟨false, scanErrorMessage e, 0⟩
    ∧ (∀ accounts : List ScanAccount, ∀ totals : Nat × Nat × Nat,
        runAccounts ingest accounts (0, 0, 0) = .ok totals →
        (handleScan accounts ingest).invalidations = 1 ∨ accounts = []) := by
  constructor
  · have hrun : runAccounts ingest [A, B] (0, 0, 0) = .error e := by
      simp [runAccounts, hA, hia, hB, hib]
    have hrun' : runAccounts ingest [A, B] 0 = Except.error e := hrun
    simp [handleScan, hrun, hrun']
  · intro accounts totals hok
    cases accounts with
    | nil => exact Or.inr rfl
    | cons a rest =>
      obtain ⟨m, t, u⟩ := totals
      have hok' : runAccounts ingest (a :: rest) 0 = Except.ok (m, t, u) := hok
      exact Or.inl (by simp [handleScan, hok, hok'])

/-- Witness for C4 at the concrete two-account scan and at a concrete
all-success scan. -/
theorem handleScan_partial_failure_witness :
    handleScan [⟨"A", true⟩, ⟨"B", true⟩] exIngestAB = ⟨false, scanErrorMessage "boom", 0⟩
    ∧ (handleScan [⟨"A", true⟩] exIngestAB).invalidations = 1 := by
  constructor
  · exact (handleScan_partial_failure ⟨"A", true⟩ ⟨"B", true⟩ exIngestAB
      ⟨5, 2, 1⟩ "boom" rfl rfl rfl rfl).1
  · have h := (handleScan_partial_failure ⟨"A", true⟩ ⟨"B", true⟩ exIngestAB
      ⟨5, 2, 1⟩ "boom" rfl rfl rfl rfl).2
      [⟨"A", true⟩] (5, 2, 1) rfl
    rcases h with h | h
    · exact h
    · exact List.noConfusion h

/-! ### C10: at most one ScanJob in flight -/

/-- The scan triggers the orchestrator can receive: a manual "Scan Now"
click (guarded by `disabled={isScanning}` in feed-filters.tsx and
`disabled={refreshMutation.isPending}` in trending-feed.tsx), an auto-scan
timer tick (guarded by `if (!refreshMutation.isPending)` in
trending-feed.tsx lines 440 and 447), and the completion of the in-flight
scan (the `finally` block / mutation settling). -/
inductive ScanEvent where
  | scanClick : ScanEvent
  | autoTick : ScanEvent
  | complete : ScanEvent
deriving DecidableEq

/-- The orchestrator's scan state: the busy flag (`isScanning` /
`refreshMutation.isPending`), how many ScanJobs are currently in flight, and
how many were ever created. -/
structure ScanOrchestrator where
  isScanning : Bool
  jobsInFlight : Nat
  jobsCreated : Nat
deriving DecidableEq

/-- A scan trigger observed while a scan is in flight is dropped by the
busy guard; otherwise it creates one ScanJob and sets the busy flag. -/
def scanTrigger (s : ScanOrchestrator) : ScanOrchestrator :=
  if s.isScanning then s
  else ⟨true, s.jobsInFlight + 1, s.jobsCreated + 1⟩

/-- One orchestrator step per event: both the manual click and the timer
tick go through the busy guard; completion clears the flag. -/
def scanStep (s : ScanOrchestrator) : ScanEvent → ScanOrchestrator
  | .scanClick => scanTrigger s
  | .autoTick => scanTrigger s
  | .complete => ⟨false, s.jobsInFlight - 1, s.jobsCreated⟩

/-- Running a sequence of events from the idle initial state. -/
def runScanEvents (events : List ScanEvent) : ScanOrchestrator :=
  events.foldl scanStep ⟨false, 0, 0⟩

/-- Helper invariant: the number of in-flight jobs always matches the busy
flag, so it never exceeds one. -/
theorem runScanEvents_invariant (events : List ScanEvent) (s : ScanOrchestrator)
    (h : s.jobsInFlight = (if s.isScanning then 1 else 0)) :
    (events.foldl scanStep s).jobsInFlight
      = (if (events.foldl scanStep s).isScanning then 1 else 0) := by
  induction events generalizing s with
  | nil => exact h
  | cons e rest ih =>
    rw [List.foldl_cons]
    refine ih (scanStep s e) ?_
    cases e with
    | scanClick =>
      rw [scanStep, scanTrigger]
      cases hb : s.isScanning with
      | true => simpa [hb] using h
      | false => simp [hb] at h; simp [hb, h]
    | autoTick =>
      rw [scanStep, scanTrigger]
      cases hb : s.isScanning with
      | true => simpa [hb] using h
      | false => simp [hb] at h; simp [hb, h]
    | complete =>
      rw [scanStep]
      cases hb : s.isScanning with
      | true => simp [hb] at h; simp [h]
      | false => simp [hb] at h; simp [h]

/-- C10: a manual scan click or an auto-scan timer tick arriving while a
scan is already in flight is a no-op (the state is unchanged, so no second
ScanJob is created and nothing is queued), and along every event sequence
from the idle state at most one ScanJob is ever in flight. -/
theorem scanJob_single_flight :
    (∀ s : ScanOrchestrator, s.isScanning = true →
      scanStep s .scanClick = s ∧ scanStep s .autoTick = s)
    ∧ (∀ events : List ScanEvent, (runScanEvents events).jobsInFlight ≤ 1) := by
  constructor
  · intro s hs
    constructor <;> · rw [scanStep, scanTrigger, hs]; rfl
  · intro events
    have h := runScanEvents_invariant events ⟨false, 0, 0⟩ rfl
    rw [runScanEvents, h]
    cases (events.foldl scanStep ⟨false, 0, 0⟩).isScanning <;> simp

/-- Witness for C10: a concrete busy state absorbs a click and a tick, and
a concrete event trace with a redundant second click keeps at most one job
in flight. -/
theorem scanJob_single_flight_witness :
    (scanStep ⟨true, 1, 3⟩ .scanClick = ⟨true, 1, 3⟩
      ∧ scanStep ⟨true, 1, 3⟩ .autoTick = ⟨true, 1, 3⟩)
    ∧ (runScanEvents [.scanClick, .scanClick, .autoTick]).jobsInFlight ≤ 1 :=
  ⟨scanJob_single_flight.1 ⟨true, 1, 3⟩ rfl,
   scanJob_single_flight.2 [.scanClick, .scanClick, .autoTick]⟩

/-! ### The scan-message filter and sanitizer of the signal-card component

The JavaScript regular expressions are translated into explicit scanners:
`/https?:\/\/[^\s]+/g` removal, `/[A-Za-z0-9]{32,}/g` removal (equivalently,
dropping every maximal alphanumeric run of length at least 32, since the
greedy leftmost match always consumes a whole run), `/\s+/g → " "` collapse
and `/\s*\/\s*\//g → " "` removal (where the greedy `\s*` can only succeed on
the maximal whitespace run).  The two removal scanners advance at least one
character per step, so they are written with a fuel argument initialised to
the input length, which is never exhausted. -/

/-- Total length of the maximal alphanumeric runs of length at least 32
(the `/[A-Za-z0-9]{32,}/g` matches), accumulating the current run length. -/
def longRunTotalAux : List Char → Nat → Nat
  | [], cur => if 32 ≤ cur then cur else 0
  | c :: rest, cur =>
    if isAlnumChar c then longRunTotalAux rest (cur + 1)
    else (if 32 ≤ cur then cur else 0) + longRunTotalAux rest 0

/-- Joined length of all candidate-address matches in a text. -/
def longRunTotal (s : List Char) : Nat := longRunTotalAux s 0

/-- The fixed scanner/bot substrings of `isScanMessage` (source lines
423-427), matched against the lower-cased text. -/
def scanPatterns : List String :=
  ["pump.fun", "dexscreener.com", "birdeye.so", "raydium.io", "jupiter.ag",
   "ca:", "contract:", "mint:", "token address", "buy now", "presale",
   "🔥 new", "🚀 launched", "💎 gem alert"]

/-- Embeds `isScanMessage` (source lines 416-440): reject text shorter than
20 characters, text whose lower-casing contains a scanner/bot substring,
text containing a URL marker, text with more than two `/` characters
(`text.split("/").length > 3`), and text whose candidate-address runs joined
make up more than 30% of its length (the float comparison
`joined > 0.3 * len` is exact on these integer operands, modelled as
`10 * joined > 3 * len`). -/
def isScanMessage (text : String) : Bool :=
  if decide (text.data.length < 20) then true
  else if scanPatterns.any (fun p => containsSubL p.data (lowerL text.data)) then true
  else if containsSubL "http://".data text.data
      || containsSubL "https://".data text.data then true
  else if decide (3 ≤ text.data.count '/') then true
  else if decide (0 < longRunTotal text.data)
      && decide (3 * text.data.length < 10 * longRunTotal text.data) then true
  else false

/-- The spec's name for the scan filter: `isOrganic` accepts exactly what
`isScanMessage` rejects. -/
def isOrganic (text : String) : Bool := !isScanMessage text

/-- Match of `/https?:\/\/[^\s]+/` at the head of the list for one scheme:
the scheme prefix followed by at least one non-whitespace character;
returns the remainder after the maximal non-whitespace run. -/
def matchUrlScheme (pre s : List Char) : Option (List Char) :=
  if pre.isPrefixOf s then
    let rest := s.drop pre.length
    if (rest.takeWhile (fun c => !isWsChar c)).isEmpty then none
    else some (rest.dropWhile (fun c => !isWsChar c))
  else none

/-- Match of `/https?:\/\/[^\s]+/` at the head of the list (the `s?` makes
the engine try `https://` and then `http://`). -/
def matchUrlAt (s : List Char) : Option (List Char) :=
  match matchUrlScheme "https://".data s with
  | some r => some r
  | none => matchUrlScheme "http://".data s

/-- Global URL removal, `text.replace(/https?:\/\/[^\s]+/g, "")`: scan left
to right, dropping each match; the fuel starts at the input length and a
step consumes at least one character, so it never runs out. -/
def removeUrlsAux : Nat → List Char → List Char
  | 0, s => s
  | _ + 1, [] => []
  | fuel + 1, c :: rest =>
    match matchUrlAt (c :: rest) with
    | some r => removeUrlsAux fuel r
    | none => c :: removeUrlsAux fuel rest

/-- JS `text.replace(/https?:\/\/[^\s]+/g, "")`. -/
def removeUrlsL (s : List Char) : List Char := removeUrlsAux s.length s

/-- Global candidate-address removal,
`cleaned.replace(/[A-Za-z0-9]{32,}/g, "")`: buffer the current
alphanumeric run and drop it when it reaches length 32. -/
def removeRunsAux : List Char → List Char → List Char
  | [], cur => if 32 ≤ cur.length then [] else cur
  | c :: rest, cur =>
    if isAlnumChar c then removeRunsAux rest (cur ++ [c])
    else (if 32 ≤ cur.length then [] else cur) ++ c :: removeRunsAux rest []

/-- JS `cleaned.replace(/[A-Za-z0-9]{32,}/g, "")`. -/
def removeRunsL (s : List Char) : List Char := removeRunsAux s []

/-- Whitespace collapse, `cleaned.replace(/\s+/g, " ")`: the flag records
that the current whitespace run has already emitted its single space. -/
def collapseAux : List Char → Bool → List Char
  | [], _ => []
  | c :: rest, inWs =>
    if isWsChar c then
      if inWs then collapseAux rest true else ' ' :: collapseAux rest true
    else c :: collapseAux rest false

/-- JS `cleaned.replace(/\s+/g, " ")`. -/
def collapseL (s : List Char) : List Char := collapseAux s false

/-- Match of `/\s*\/\s*\//` at the head of the list: maximal whitespace,
a slash, maximal whitespace, a slash (a shorter `\s*` can never succeed,
since the following character would still be whitespace). -/
def matchSlashFragAt (s : List Char) : Option (List Char) :=
  match s.dropWhile isWsChar with
  | '/' :: s2 =>
    match s2.dropWhile isWsChar with
    | '/' :: s4 => some s4
    | _ => none
  | _ => none

/-- Global dangling-slash removal, `cleaned.replace(/\s*\/\s*\//g, " ")`:
each match is replaced by a single space. -/
def slashFragAux : Nat → List Char → List Char
  | 0, s => s
  | _ + 1, [] => []
  | fuel + 1, c :: rest =>
    match matchSlashFragAt (c :: rest) with
    | some s4 => ' ' :: slashFragAux fuel s4
    | none => c :: slashFragAux fuel rest

/-- JS `cleaned.replace(/\s*\/\s*\//g, " ")`. -/
def slashFragL (s : List Char) : List Char := slashFragAux s.length s

/-- The 280-character truncation with ellipsis (source lines 459-461). -/
def truncL (s : List Char) : List Char :=
  if 280 < s.length then s.take 280 ++ "...".data else s

/-- The cleaning pipeline of `cleanSignalText` after the scan-message gate
(source lines 449-461): strip URLs, trim, strip candidate-address runs,
trim, collapse whitespace, strip dangling slash fragments, trim, truncate. -/
def cleanCore (s : List Char) : List Char :=
  truncL (trimL (slashFragL (collapseL (trimL (removeRunsL (trimL (removeUrlsL s)))))))

/-- Embeds `cleanSignalText` (source lines 442-465): empty and
scan-classified text yield the empty string; otherwise the cleaned text is
returned unless it ended up shorter than 20 characters. -/
def cleanSignalText (text : String) : String :=
  if text.data.isEmpty then ""
  else if isScanMessage text then ""
  else if decide (20 ≤ (cleanCore text.data).length) then ⟨cleanCore text.data⟩
  else ""

/-- Definition following the claim's words for C6: the sanitize pipeline as
the claim describes it — strip URLs and long alphanumeric runs, collapse
whitespace, remove dangling slash fragments, truncate to 280 characters
with an ellipsis, and return the empty string when the result is shorter
than 20 characters — without the scan-message early return. -/
def sanitizeClaim (text : String) : String :=
  if decide (20 ≤ (cleanCore text.data).length) then ⟨cleanCore text.data⟩ else ""

/-- Helper: the truncation never produces more than 283 characters
(280 plus the three-character ellipsis). -/
theorem truncL_length_le (l : List Char) : (truncL l).length ≤ 283 := by
  rw [truncL]
  by_cases h : 280 < l.length
  · rw [if_pos h, List.length_append, List.length_take]
    have h3 : ("...".data).length = 3 := rfl
    rw [h3]
    omega
  · rw [if_neg h]
    omega

/-- Helper: the truncation is idempotent — truncating an already truncated
text changes nothing, since the kept prefix has exactly 280 characters. -/
theorem truncL_idem (l : List Char) : truncL (truncL l) = truncL l := by
  by_cases h : 280 < l.length
  · have h1 : truncL l = l.take 280 ++ "...".data := by rw [truncL, if_pos h]
    have hlen : (l.take 280 ++ "...".data).length = 283 := by
      rw [List.length_append, List.length_take]
      have h3 : ("...".data).length = 3 := rfl
      rw [h3]
      omega
    have h280 : (l.take 280).length = 280 := by
      rw [List.length_take]
      omega
    have htake : (l.take 280 ++ "...".data).take 280 = l.take 280 := by
      calc (l.take 280 ++ "...".data).take 280
          = (l.take 280 ++ "...".data).take (l.take 280).length := by rw [h280]
        _ = l.take 280 := List.take_left _ _
    rw [h1, truncL, if_pos (by rw [hlen]; omega), htake]
  · have h1 : truncL l = l := by rw [truncL, if_neg h]
    rw [h1, h1]

/-- Helper: text the scan filter let through has at least 20 characters. -/
theorem isScanMessage_false_length (x : String) (h : isScanMessage x = false) :
    20 ≤ x.data.length := by
  by_contra hlt
  push_neg at hlt
  have htrue : isScanMessage x = true := by
    rw [isScanMessage, if_pos (decide_eq_true hlt)]
  rw [htrue] at h
  exact Bool.noConfusion h

/-- Helper: the sanitized output is always a truncation fixed point. -/
theorem cleanSignalText_trunc_fixed (t : String) :
    truncL (cleanSignalText t).data = (cleanSignalText t).data := by
  rw [cleanSignalText, cleanCore]
  generalize trimL (slashFragL (collapseL (trimL (removeRunsL (trimL (removeUrlsL t.data)))))) = Y
  by_cases h1 : t.data.isEmpty = true
  · rw [if_pos h1]
    decide
  · rw [if_neg h1]
    by_cases h2 : isScanMessage t = true
    · rw [if_pos h2]
      decide
    · rw [if_neg h2]
      by_cases h3 : decide (20 ≤ (truncL Y).length) = true
      · rw [if_pos h3]
        show truncL (truncL Y) = truncL Y
        exact truncL_idem Y
      · rw [if_neg h3]
        decide

/-- C6 (amended): sanitize first returns the empty string for empty or
scan-classified input; on all other input it equals the claim's pipeline —
strip URLs and alphanumeric runs of length at least 32, collapse whitespace,
remove dangling slash fragments, trim, truncate beyond 280 characters to 280
plus an ellipsis, and return the empty string when the result is shorter
than 20 characters.  The output never exceeds 283 characters and is never a
non-empty string shorter than 20 characters. -/
theorem cleanSignalText_spec (text : String) :
    cleanSignalText text
      = (if text.data.isEmpty || isScanMessage text then "" else sanitizeClaim text)
    ∧ (cleanSignalText text).data.length ≤ 283
    ∧ (cleanSignalText text = "" ∨ 20 ≤ (cleanSignalText text).data.length) := by
  refine ⟨?_, ?_, ?_⟩
  · rw [cleanSignalText, sanitizeClaim]
    by_cases h1 : text.data.isEmpty = true
    · have hcond : (text.data.isEmpty || isScanMessage text) = true := by
        rw [h1, Bool.true_or]
      rw [if_pos h1, if_pos hcond]
    · have h1' : text.data.isEmpty = false := by
        cases hb : text.data.isEmpty with
        | true => exact absurd hb h1
        | false => rfl
      rw [if_neg h1]
      by_cases h2 : isScanMessage text = true
      · have hcond : (text.data.isEmpty || isScanMessage text) = true := by
          rw [h2, Bool.or_true]
        rw [if_pos h2, if_pos hcond]
      · have h2' : isScanMessage text = false := by
          cases hb : isScanMessage text with
          | true => exact absurd hb h2
          | false => rfl
        have hcond : ¬((text.data.isEmpty || isScanMessage text) = true) := by
          rw [h1', h2']
          exact Bool.false_ne_true
        rw [if_neg h2, if_neg hcond]
  · rw [cleanSignalText, cleanCore]
    generalize trimL (slashFragL (collapseL (trimL (removeRunsL (trimL (removeUrlsL text.data)))))) = Y
    by_cases h1 : text.data.isEmpty = true
    · rw [if_pos h1]
      decide
    · rw [if_neg h1]
      by_cases h2 : isScanMessage text = true
      · rw [if_pos h2]
        decide
      · rw [if_neg h2]
        by_cases h3 : decide (20 ≤ (truncL Y).length) = true
        · rw [if_pos h3]
          show (truncL Y).length ≤ 283
          exact truncL_length_le Y
        · rw [if_neg h3]
          decide
  · rw [cleanSignalText, cleanCore]
    generalize trimL (slashFragL (collapseL (trimL (removeRunsL (trimL (removeUrlsL text.data)))))) = Y
    by_cases h1 : text.data.isEmpty = true
    · rw [if_pos h1]
      exact Or.inl rfl
    · rw [if_neg h1]
      by_cases h2 : isScanMessage text = true
      · rw [if_pos h2]
        exact Or.inl rfl
      · rw [if_neg h2]
        by_cases h3 : decide (20 ≤ (truncL Y).length) = true
        · rw [if_pos h3]
          refine Or.inr ?_
          show 20 ≤ (truncL Y).length
          exact of_decide_eq_true h3
        · rw [if_neg h3]
          exact Or.inl rfl

/-- Counterexample for C6 as stated: on a long organic sentence containing a
URL the code returns the empty string (the scan-message gate fires on any
URL), while the claim's described pipeline strips the URL and returns the
remaining 45-character sentence. -/
theorem cleanSignalText_claim_counterexample :
    cleanSignalText "check this great project out today https://example.com more words" = ""
    ∧ sanitizeClaim "check this great project out today https://example.com more words"
        = "check this great project out today more words"
    ∧ cleanSignalText "check this great project out today https://example.com more words"
        ≠ sanitizeClaim "check this great project out today https://example.com more words" := by
  exact ⟨by decide, by decide, by decide⟩

/-- C7 (amended): sanitize is idempotent on every input whose sanitized
output is not scan-classified and is left unchanged by each individual
cleaning step (URL removal, candidate-address-run removal, whitespace
collapse, dangling-slash removal, trimming); the truncation stage is then
also a fixed point, because a truncated output is never re-truncated
differently.  In general idempotence fails: the dangling-slash replacement
can leave a double space that only a second pass collapses. -/
theorem cleanSignalText_idem (t : String)
    (hscan : isScanMessage (cleanSignalText t) = false)
    (hurl : removeUrlsL (cleanSignalText t).data = (cleanSignalText t).data)
    (htrim : trimL (cleanSignalText t).data = (cleanSignalText t).data)
    (hruns : removeRunsL (cleanSignalText t).data = (cleanSignalText t).data)
    (hws : collapseL (cleanSignalText t).data = (cleanSignalText t).data)
    (hslash : slashFragL (cleanSignalText t).data = (cleanSignalText t).data) :
    cleanSignalText (cleanSignalText t) = cleanSignalText t := by
  have htrunc := cleanSignalText_trunc_fixed t
  set r := cleanSignalText t with hrdef
  have hlen : 20 ≤ r.data.length := isScanMessage_false_length r hscan
  have hempty : r.data.isEmpty = false := by
    cases hd : r.data.isEmpty with
    | false => rfl
    | true =>
      rw [List.isEmpty_iff] at hd
      rw [hd] at hlen
      simp at hlen
  have hcore : cleanCore r.data = r.data := by
    rw [cleanCore, hurl, htrim, hruns, htrim, hws, hslash, htrim, htrunc]
  rw [cleanSignalText, hempty, if_neg Bool.false_ne_true, hscan,
    if_neg Bool.false_ne_true, hcore, if_pos (decide_eq_true hlen)]

/-- Counterexample for C7 as stated: on a sentence with a dangling `/ /`
fragment the first sanitize pass replaces it by a space, leaving two
adjacent spaces, and a second pass collapses them, so sanitize is not
idempotent. -/
theorem cleanSignalText_idem_counterexample :
    cleanSignalText (cleanSignalText "hello world foo / / bar baz quux longer")
      ≠ cleanSignalText "hello world foo / / bar baz quux longer" := by
  decide

/-- Witness for C7 at a concrete organic sentence that the pipeline leaves
unchanged. -/
theorem cleanSignalText_idem_witness :
    cleanSignalText (cleanSignalText "hello my good friends this is organic chat")
      = cleanSignalText "hello my good friends this is organic chat" :=
  cleanSignalText_idem "hello my good friends this is organic chat"
    (by decide) (by decide) (by decide) (by decide) (by decide) (by decide)

/-! ### C8: the organic-text predicate -/

/-- Helper: a chain of five boolean guards with `true` branches is the
disjunction of the guards. -/
theorem ifChain5_or : ∀ b1 b2 b3 b4 b5 : Bool,
    (if b1 then true else if b2 then true else if b3 then true
     else if b4 then true else if b5 then true else false)
      = (b1 || (b2 || b3 || b4 || b5)) := by
  decide

/-- Definition following the claim's words for C8: reject text shorter than
20 characters, text containing a fixed scanner/bot substring, text
containing a URL, and text whose candidate-address runs exceed 30% of its
length — with no slash-count clause. -/
def organicRejectClaim (text : String) : Bool :=
  decide (text.data.length < 20)
  || (scanPatterns.any (fun p => containsSubL p.data (lowerL text.data))
    || (containsSubL "http://".data text.data || containsSubL "https://".data text.data)
    || (decide (0 < longRunTotal text.data)
        && decide (3 * text.data.length < 10 * longRunTotal text.data)))

/-- The claim's rejection predicate amended as the code forces: text with
more than two `/` characters (`text.split("/").length > 3`) is also
rejected. -/
def organicRejectAmended (text : String) : Bool :=
  decide (text.data.length < 20)
  || (scanPatterns.any (fun p => containsSubL p.data (lowerL text.data))
    || (containsSubL "http://".data text.data || containsSubL "https://".data text.data)
    || decide (3 ≤ text.data.count '/')
    || (decide (0 < longRunTotal text.data)
        && decide (3 * text.data.length < 10 * longRunTotal text.data)))

/-- C8 (amended): `isOrganic` returns false exactly when the text is shorter
than 20 characters, or contains one of the fixed scanner/bot substrings, or
contains a URL, or contains more than two `/` characters, or its
candidate-address runs make up more than 30% of its length; and on the
claim's scenario `"🔥 New gem! pump.fun/abc123 buy now!!"` it returns
false. -/
theorem isOrganic_spec (text : String) :
    isScanMessage text = organicRejectAmended text
    ∧ isOrganic text = !organicRejectAmended text
    ∧ isOrganic "🔥 New gem! pump.fun/abc123 buy now!!" = false := by
  have h : isScanMessage text = organicRejectAmended text :=
    ifChain5_or (decide (text.data.length < 20))
      (scanPatterns.any (fun p => containsSubL p.data (lowerL text.data)))
      (containsSubL "http://".data text.data || containsSubL "https://".data text.data)
      (decide (3 ≤ text.data.count '/'))
      (decide (0 < longRunTotal text.data)
        && decide (3 * text.data.length < 10 * longRunTotal text.data))
  exact ⟨h, by rw [isOrganic, h], by decide⟩

/-- Counterexample for C8 as stated: a 40-character organic sentence with
three slashes and no URL, no scanner substring and no long run is rejected
by the code (the slash-count clause the claim omits), though none of the
claim's enumerated conditions holds. -/
theorem isOrganic_claim_counterexample :
    isOrganic "nice a/b then c/d then e/f words here ok" = false
    ∧ organicRejectClaim "nice a/b then c/d then e/f words here ok" = false := by
  exact ⟨by decide, by decide⟩

/-! ### C9: the narrative extractor (`extractThemes`, source lines 391-414)

Each keyword regex is translated over the lower-cased text (all the regexes
carry the `i` flag): alternations of literals become substring tests,
`\d+x|\d+X` becomes "a digit immediately followed by x" (the last digit of
the matched digit run), and `big.*buy` / `large.*buy` become "an occurrence
of the first word with an occurrence of the second word after it and no line
break between them" (JS `.` does not match line terminators). -/

/-- Match of `/\d+x/i` on lower-cased text: some digit immediately followed
by `x`. -/
def hasDigitX : List Char → Bool
  | [] => false
  | [_] => false
  | a :: b :: rest => (isDigitChar a && b = 'x') || hasDigitX (b :: rest)

/-- JS line terminators excluded by `.`. -/
def isLineBreak (c : Char) : Bool :=
  c = '\n' || c = '\r' || c = Char.ofNat 0x2028 || c = Char.ofNat 0x2029

/-- Match of `/p.*q/` (no `s` flag): an occurrence of `p` followed, with no
line break in between, by an occurrence of `q` (here `q` itself contains no
line break). -/
def seqNoNl (p q : List Char) : List Char → Bool
  | [] => false
  | c :: rest =>
    (p.isPrefixOf (c :: rest)
      && containsSubL q (((c :: rest).drop p.length).takeWhile (fun ch => !isLineBreak ch)))
    || seqNoNl p q rest

/-- Lower-cased text of a signal, the shared scrutinee of the keyword
regexes. -/
def themeText (text : String) : List Char := lowerL text.data

/-- Regex `/\d+x|\d+X|moon|pump|send|rip/i`. -/
def priceTargetHit (text : String) : Bool :=
  hasDigitX (themeText text) || containsSubL "moon".data (themeText text)
    || containsSubL "pump".data (themeText text)
    || containsSubL "send".data (themeText text)
    || containsSubL "rip".data (themeText text)

/-- Regex `/dip|buy|entry|load|accumulate/i`. -/
def entrySignalHit (text : String) : Bool :=
  containsSubL "dip".data (themeText text) || containsSubL "buy".data (themeText text)
    || containsSubL "entry".data (themeText text)
    || containsSubL "load".data (themeText text)
    || containsSubL "accumulate".data (themeText text)

/-- Regex `/sell|exit|dump|rug|scam/i`. -/
def warningHit (text : String) : Bool :=
  containsSubL "sell".data (themeText text) || containsSubL "exit".data (themeText text)
    || containsSubL "dump".data (themeText text)
    || containsSubL "rug".data (themeText text)
    || containsSubL "scam".data (themeText text)

/-- Regex `/launch|listing|cex|binance|coinbase/i`. -/
def listingHit (text : String) : Bool :=
  containsSubL "launch".data (themeText text)
    || containsSubL "listing".data (themeText text)
    || containsSubL "cex".data (themeText text)
    || containsSubL "binance".data (themeText text)
    || containsSubL "coinbase".data (themeText text)

/-- Regex `/airdrop|drop/i`. -/
def airdropHit (text : String) : Bool :=
  containsSubL "airdrop".data (themeText text) || containsSubL "drop".data (themeText text)

/-- Regex `/partnership|collab/i`. -/
def partnershipHit (text : String) : Bool :=
  containsSubL "partnership".data (themeText text)
    || containsSubL "collab".data (themeText text)

/-- Regex `/update|upgrade|v2|release/i`. -/
def developmentHit (text : String) : Bool :=
  containsSubL "update".data (themeText text)
    || containsSubL "upgrade".data (themeText text)
    || containsSubL "v2".data (themeText text)
    || containsSubL "release".data (themeText text)

/-- Regex `/whale|big.*buy|large.*buy/i`. -/
def whaleActivityHit (text : String) : Bool :=
  containsSubL "whale".data (themeText text)
    || seqNoNl "big".data "buy".data (themeText text)
    || seqNoNl "large".data "buy".data (themeText text)

/-- Regex `/influencer|kol|ct|crypto twitter/i`. -/
def influencerHit (text : String) : Bool :=
  containsSubL "influencer".data (themeText text)
    || containsSubL "kol".data (themeText text)
    || containsSubL "ct".data (themeText text)
    || containsSubL "crypto twitter".data (themeText text)

/-- Regex `/dev|team|founder/i`. -/
def teamActivityHit (text : String) : Bool :=
  containsSubL "dev".data (themeText text) || containsSubL "team".data (themeText text)
    || containsSubL "founder".data (themeText text)

/-- The sequence of `themes.push` calls of `extractThemes`, as a function of
the ten match flags in source order. -/
def themesFromFlags (b1 b2 b3 b4 b5 b6 b7 b8 b9 b10 : Bool) : List String :=
  (if b1 then ["Price Target"] else []) ++ (if b2 then ["Entry Signal"] else [])
    ++ (if b3 then ["Warning"] else []) ++ (if b4 then ["Listing"] else [])
    ++ (if b5 then ["Airdrop"] else []) ++ (if b6 then ["Partnership"] else [])
    ++ (if b7 then ["Development"] else []) ++ (if b8 then ["Whale Activity"] else [])
    ++ (if b9 then ["Influencer"] else []) ++ (if b10 then ["Team Activity"] else [])

/-- JS `Array.from(new Set(themes))`: deduplication keeping first
occurrences in order. -/
def dedupFirstAux : List String → List String → List String
  | [], _ => []
  | x :: xs, seen =>
    if seen.contains x then dedupFirstAux xs seen
    else x :: dedupFirstAux xs (x :: seen)

/-- Insertion-ordered deduplication. -/
def dedupFirst (l : List String) : List String := dedupFirstAux l []

/-- Embeds `extractThemes` (source lines 391-414): push each matched tag in
the fixed source order, deduplicate preserving insertion order, keep the
first three. -/
def extractThemes (text : String) : List String :=
  (dedupFirst (themesFromFlags (priceTargetHit text) (entrySignalHit text)
    (warningHit text) (listingHit text) (airdropHit text) (partnershipHit text)
    (developmentHit text) (whaleActivityHit text) (influencerHit text)
    (teamActivityHit text))).take 3

/-- The fixed keyword-table priority order of the claim. -/
def themeOrder : List String :=
  ["Price Target", "Entry Signal", "Warning", "Listing", "Airdrop",
   "Partnership", "Development", "Whale Activity", "Influencer", "Team Activity"]

/-- The keyword-table rows paired with their match flags, in table order. -/
def themeFlagPairs (b1 b2 b3 b4 b5 b6 b7 b8 b9 b10 : Bool) : List (String × Bool) :=
  [("Price Target", b1), ("Entry Signal", b2), ("Warning", b3), ("Listing", b4),
   ("Airdrop", b5), ("Partnership", b6), ("Development", b7), ("Whale Activity", b8),
   ("Influencer", b9), ("Team Activity", b10)]

/-- Definition following the claim's words for C9: the full list of matched
tags, in the fixed keyword-table priority order. -/
def matchedThemes (text : String) : List String :=
  ((themeFlagPairs (priceTargetHit text) (entrySignalHit text) (warningHit text)
    (listingHit text) (airdropHit text) (partnershipHit text) (developmentHit text)
    (whaleActivityHit text) (influencerHit text) (teamActivityHit text)).filter
      (fun p => p.2)).map (fun p => p.1)

/-- Helper: for every combination of match flags, the push/dedup/take-3
computation of the source equals the first three matched table rows in table
order, has at most three entries, has no duplicate and respects table
order. -/
theorem extractThemes_general : ∀ b1 b2 b3 b4 b5 b6 b7 b8 b9 b10 : Bool,
    (dedupFirst (themesFromFlags b1 b2 b3 b4 b5 b6 b7 b8 b9 b10)).take 3
      = (((themeFlagPairs b1 b2 b3 b4 b5 b6 b7 b8 b9 b10).filter
          (fun p => p.2)).map (fun p => p.1)).take 3
    ∧ ((dedupFirst (themesFromFlags b1 b2 b3 b4 b5 b6 b7 b8 b9 b10)).take 3).length ≤ 3
    ∧ ((dedupFirst (themesFromFlags b1 b2 b3 b4 b5 b6 b7 b8 b9 b10)).take 3).Nodup
    ∧ List.Sublist ((dedupFirst (themesFromFlags b1 b2 b3 b4 b5 b6 b7 b8 b9 b10)).take 3) themeOrder := by
  decide

/-- C9: `extractThemes` returns the first three matched tags of the fixed
keyword table in table priority order, so it never returns more than three
tags, never returns a duplicate tag, and lists tags in table order. -/
theorem extractThemes_spec (text : String) :
    extractThemes text = (matchedThemes text).take 3
    ∧ (extractThemes text).length ≤ 3
    ∧ (extractThemes text).Nodup
    ∧ List.Sublist (extractThemes text) themeOrder := by
  exact extractThemes_general (priceTargetHit text) (entrySignalHit text)
    (warningHit text) (listingHit text) (airdropHit text) (partnershipHit text)
    (developmentHit text) (whaleActivityHit text) (influencerHit text)
    (teamActivityHit text)

/-! ### C5: the hidden-count disclosure of the feed -/

/-- Records dropped at step (1), the chain filter. -/
def droppedByChain (signals : List Signal) : Nat :=
  (signals.filter (fun s => !isValidChain s)).length

/-- Records dropped at step (2), the identity filter, among chain-valid
records. -/
def droppedByIdentity (signals : List Signal) : Nat :=
  (signals.filter (fun s => isValidChain s && !hasValidTokenName s)).length

/-- Embeds the hidden-count disclosure of the feed rendering
(signal-feed.tsx lines 273-285): a count is shown only when the filtered
list is empty while the fetched list is not, and the number shown is
`signals.length` (the message "N signals were filtered out"). -/
def reportedHiddenCount (signals : List Signal) : Option Nat :=
  if (filteredSignals signals).isEmpty then
    if 0 < signals.length then some signals.length else none
  else none

/-- Helper: every fetched record either passes both filter steps, is dropped
by the chain filter, or is dropped by the identity filter. -/
theorem length_partition (signals : List Signal) :
    signals.length = (filteredSignals signals).length
      + droppedByChain signals + droppedByIdentity signals := by
  induction signals with
  | nil => rfl
  | cons s rest ih =>
    rw [filteredSignals, droppedByChain, droppedByIdentity] at ih ⊢
    cases hv : isValidChain s <;> cases hn : hasValidTokenName s <;>
      simp [List.filter_cons, hv, hn] <;> omega

/-- C5 (amended): the composed feed reports a hidden count only when every
fetched record was filtered out (and at least one record was fetched); the
number it then reports — the total input length — equals the number of
records dropped at step (1) (chain not allowed) plus the number dropped at
step (2) (no display identity), and nothing else is counted. -/
theorem hiddenCount_spec (signals : List Signal) (n : Nat)
    (h : reportedHiddenCount signals = some n) :
    n = droppedByChain signals + droppedByIdentity signals := by
  rw [reportedHiddenCount] at h
  by_cases h1 : (filteredSignals signals).isEmpty = true
  · rw [if_pos h1] at h
    by_cases h2 : 0 < signals.length
    · rw [if_pos h2] at h
      have hn := Option.some.inj h
      have hpart := length_partition signals
      have hflen : (filteredSignals signals).length = 0 := by
        rw [List.isEmpty_iff] at h1
        rw [h1]
        rfl
      omega
    · rw [if_neg h2] at h
      exact Option.noConfusion h
  · rw [if_neg h1] at h
    exact Option.noConfusion h

/-- Counterexample for C5 as stated: for a fetch where one record passes and
one is dropped by the chain filter, the feed reports no hidden count at all
(the claim demands hiddenCount = 1 be reported on every input). -/
theorem hiddenCount_claim_counterexample :
    reportedHiddenCount [exSolanaSignal, exEthSignal] = none
    ∧ droppedByChain [exSolanaSignal, exEthSignal]
        + droppedByIdentity [exSolanaSignal, exEthSignal] = 1 := by
  exact ⟨by decide, by decide⟩

/-- Witness for C5 at a concrete all-filtered fetch: one record, dropped by
the chain filter, reported as one hidden signal. -/
theorem hiddenCount_spec_witness :
    1 = droppedByChain [exEthSignal] + droppedByIdentity [exEthSignal] :=
  hiddenCount_spec [exEthSignal] 1 (by decide)

end Bloomberg
